import Mathlib

/-!
# Verification of the Vestaboard board-content model and renderers

A shallow embedding of `custom_components/vestaboard/vestaboard_model.py` and
`custom_components/vestaboard/helpers.py` (the board content model, symbol
codec, and the geometric/markup fragments of the raster and vector renderers),
together with proofs of the specified properties.

Modelling conventions:
* Python `dict`s become association lists (`List (k × v)`) looked up with
  `List.lookup`; the `|` dict-union becomes `dictUnion` with Python semantics
  (left operand's key order, right operand's values win, new keys appended).
* Python `float`s become exact rationals (`ℚ`); `int(...)` truncation toward
  zero becomes `pyInt`.
* Functions that `raise ValueError` become `Except String` values carrying the
  formatted message; `{x!r}` formatting of the plain names involved becomes
  `pyRepr` (the name surrounded by single quotes).
* The frozen dataclass `VestaboardModel`, whose `__post_init__` makes invalid
  instances unconstructible, becomes a structure carrying the validity facts.
-/

/-- The printable alphabet of `helpers.py` (`PRINTABLE`), as the list of its
code points; index = character code. The apostrophe and double quote at
indices 52 and 53 are built via `Char.ofNat`. -/
def PRINTABLE : List Char :=
  " ABCDEFGHIJKLMNOPQRSTUVWXYZ1234567890!@#$() - +&=;: ".toList
    ++ [Char.ofNat 39, Char.ofNat 34]
    ++ "%,.  /? °🟥🟧🟨🟩🟦🟪⬜⬛■".toList

/-- `helpers.symbol`: `PRINTABLE[code] if 0 <= code < len(PRINTABLE) else " "`. -/
def symbol (code : Int) : String :=
  if h : 0 ≤ code ∧ code < (PRINTABLE.length : Int) then
    String.singleton (PRINTABLE.get ⟨code.toNat, by omega⟩)
  else " "

/-- `helpers.decode`. The Python argument type `list[int] | list[list[int]]`
is embedded as a sum; `data if data and isinstance(data[0], list) else [data]`
keeps a (nonempty) nested argument and wraps anything else into one row. -/
def decode (data : List Int ⊕ List (List Int)) : String :=
  let rows : List (List Int) :=
    match data with
    | Sum.inl flat => [flat]
    | Sum.inr nested => if nested = [] then [[]] else nested
  String.intercalate "\n" (rows.map (fun row => String.join (row.map symbol)))

/-- Python `repr` of a simple string: the string surrounded by single quotes
(as produced by `{name!r}` in the error messages). -/
def pyRepr (s : String) : String :=
  String.singleton (Char.ofNat 39) ++ s ++ String.singleton (Char.ofNat 39)

/-- Python `int(q)` for a rational: truncation toward zero. -/
def pyInt (q : ℚ) : Int :=
  if 0 ≤ q then Rat.floor q else -Rat.floor (-q)

/-- `vestaboard_model.ColorTheme`. -/
structure ColorTheme where
  frame : String
  bit : String
  text : String
  logo : String
  color_map : List (Int × String)
deriving Repr, DecidableEq

/-- `vestaboard_model.ModelSpec`. Physical dimensions (`float` in Python) are
exact rationals. -/
structure ModelSpec where
  rows : Nat
  columns : Nat
  width : ℚ
  height : ℚ
  frame_thickness : ℚ
  frame_border : ℚ
  emoji_map : List (Int × String) := []
deriving Repr, DecidableEq

def MODEL_FLAGSHIP : String := "flagship"

def MODEL_NOTE : String := "note"

def COLOR_BLACK : String := "black"

def COLOR_WHITE : String := "white"

/-- `BLACK_COLOR_MAP` of `vestaboard_model.py`. -/
def BLACK_COLOR_MAP : List (Int × String) :=
  [(0, "#141414"),   -- blank
   (63, "#DA291C"),  -- red
   (64, "#FA7400"),  -- orange
   (65, "#FCB81B"),  -- yellow
   (66, "#1F9A44"),  -- green
   (67, "#2083D5"),  -- blue
   (68, "#702F8A"),  -- violet
   (69, "#FFFFFF"),  -- white
   (70, "#141414"),  -- black
   (71, "#FFFFFF")]  -- filled

/-- Python dict union `a | b`: keys of `a` in order with `b`'s value where `b`
has the key, followed by the keys of `b` absent from `a`. -/
def dictUnion (a b : List (Int × String)) : List (Int × String) :=
  a.map (fun p => (p.1, (List.lookup p.1 b).getD p.2))
    ++ b.filter (fun p => (List.lookup p.1 a).isNone)

/-- `WHITE_COLOR_MAP = BLACK_COLOR_MAP | {0: ..., 69: ..., 70: ..., 71: ...}`. -/
def WHITE_COLOR_MAP : List (Int × String) :=
  dictUnion BLACK_COLOR_MAP
    [(0, "#FFFFFF"),   -- blank
     (69, "#000000"),  -- black
     (70, "#FFFFFF"),  -- white
     (71, "#000000")]  -- filled

/-- `COLOR_SCHEMES` registry. -/
def COLOR_SCHEMES : List (String × ColorTheme) :=
  [(COLOR_BLACK,
    { frame := "#171818", bit := "#141414", text := "#FFFFFF",
      logo := "#333333", color_map := BLACK_COLOR_MAP }),
   (COLOR_WHITE,
    { frame := "#F5F5F7", bit := "#FFFFFF", text := "#000000",
      logo := "#CCCCCC", color_map := WHITE_COLOR_MAP })]

/-- `MODELS` registry. `41.2 = 412/10`, `28.4 = 284/10`, `12.2 = 122/10`. -/
def MODELS : List (String × ModelSpec) :=
  [(MODEL_FLAGSHIP,
    { rows := 6, columns := 22, width := 412 / 10, height := 22,
      frame_thickness := 5 / 32, frame_border := 2 + 21 / 32 }),
   (MODEL_NOTE,
    { rows := 3, columns := 15, width := 284 / 10, height := 122 / 10,
      frame_thickness := 5 / 32, frame_border := 2,
      emoji_map := [(62, "❤️")] })]

/-- `MODEL_BY_SIZE`: reverse lookup `(rows, columns) → model name`. -/
def MODEL_BY_SIZE : List ((Nat × Nat) × String) :=
  MODELS.map (fun p => ((p.2.rows, p.2.columns), p.1))

/-- The frozen dataclass `VestaboardModel`; `__post_init__` guarantees both
registry lookups succeed, so the structure carries those facts. -/
structure VestaboardModel where
  color : String
  model : String
  hcolor : (List.lookup color COLOR_SCHEMES).isSome
  hmodel : (List.lookup model MODELS).isSome

/-- Constructing a `VestaboardModel(color, model)`: `__post_init__` raises
`ValueError` if either name is unregistered. -/
def VestaboardModel.make (color model : String) : Except String VestaboardModel :=
  if hc : (List.lookup color COLOR_SCHEMES).isSome then
    if hm : (List.lookup model MODELS).isSome then
      Except.ok ⟨color, model, hc, hm⟩
    else Except.error ("Unknown model: " ++ pyRepr model)
  else Except.error ("Unknown color: " ++ pyRepr color)

/-- `COLOR_SCHEMES[self.color]`. -/
def VestaboardModel.scheme (v : VestaboardModel) : ColorTheme :=
  (List.lookup v.color COLOR_SCHEMES).get v.hcolor

/-- `MODELS[self.model]`. -/
def VestaboardModel.spec (v : VestaboardModel) : ModelSpec :=
  (List.lookup v.model MODELS).get v.hmodel

def VestaboardModel.bit_color (v : VestaboardModel) : String := v.scheme.bit

def VestaboardModel.frame_color (v : VestaboardModel) : String := v.scheme.frame

def VestaboardModel.logo_color (v : VestaboardModel) : String := v.scheme.logo

def VestaboardModel.text_color (v : VestaboardModel) : String := v.scheme.text

def VestaboardModel.color_map (v : VestaboardModel) : List (Int × String) :=
  v.scheme.color_map

def VestaboardModel.emoji_map (v : VestaboardModel) : List (Int × String) :=
  v.spec.emoji_map

def VestaboardModel.rows (v : VestaboardModel) : Nat := v.spec.rows

def VestaboardModel.columns (v : VestaboardModel) : Nat := v.spec.columns

def VestaboardModel.width (v : VestaboardModel) : ℚ := v.spec.width

def VestaboardModel.height (v : VestaboardModel) : ℚ := v.spec.height

def VestaboardModel.frame_border (v : VestaboardModel) : ℚ := v.spec.frame_border

def VestaboardModel.frame_thickness (v : VestaboardModel) : ℚ :=
  v.spec.frame_thickness

/-- `aspect_ratio = MODELS[self.model].width / MODELS[self.model].height`. -/
def VestaboardModel.aspect_ratio (v : VestaboardModel) : ℚ :=
  v.spec.width / v.spec.height

/-- `is_flagship = self.model == MODEL_FLAGSHIP`. -/
def VestaboardModel.is_flagship (v : VestaboardModel) : Bool :=
  v.model == MODEL_FLAGSHIP

/-- `color_for_code = self.color_map.get(code)`. -/
def VestaboardModel.color_for_code (v : VestaboardModel) (code : Int) :
    Option String :=
  List.lookup code v.color_map

/-- `emoji_for_code = self.emoji_map.get(code)`. -/
def VestaboardModel.emoji_for_code (v : VestaboardModel) (code : Int) :
    Option String :=
  List.lookup code v.emoji_map

/-- `max((len(row) for row in data), default=0)`. -/
def maxRowLen (data : List (List Int)) : Nat :=
  (data.map List.length).foldl max 0

/-- `VestaboardModel.from_color`: flagship when no grid is given, otherwise a
shape lookup on `(len(data), max row length)`; raises `ValueError` whose
message shows the model name (or the attempted shape) and the repr of the
color when the shape is unknown or the color unregistered. -/
def VestaboardModel.from_color (color : String)
    (data : Option (List (List Int)) := none) : Except String VestaboardModel :=
  match data with
  | none =>
    if (List.lookup color COLOR_SCHEMES).isSome then
      VestaboardModel.make color MODEL_FLAGSHIP
    else
      Except.error
        ("Unknown Vestaboard model: " ++ MODEL_FLAGSHIP ++ " " ++ pyRepr color)
  | some d =>
    match List.lookup (d.length, maxRowLen d) MODEL_BY_SIZE with
    | none =>
      Except.error
        ("Unknown Vestaboard model: " ++ toString d.length ++ "x"
          ++ toString (maxRowLen d) ++ " " ++ pyRepr color)
    | some model =>
      if (List.lookup color COLOR_SCHEMES).isSome then
        VestaboardModel.make color model
      else
        Except.error
          ("Unknown Vestaboard model: " ++ model ++ " " ++ pyRepr color)

/-- The output-size computation of `helpers.create_png`:
`px_per_in = height / model.height; width = int(model.width * px_per_in)`. -/
def create_png_width (model : VestaboardModel) (height : Int) : Int :=
  pyInt (model.width * ((height : ℚ) / model.height))

/-- The default board: black flagship. -/
def blackFlagship : VestaboardModel :=
  ⟨COLOR_BLACK, MODEL_FLAGSHIP, by decide, by decide⟩

/-- A black note-sized board. -/
def blackNote : VestaboardModel :=
  ⟨COLOR_BLACK, MODEL_NOTE, by decide, by decide⟩

/-- Decimal digit characters. -/
def digitChars : List Char := ['0', '1', '2', '3', '4', '5', '6', '7', '8', '9']

/-- Decimal digits of a natural number, most significant first. -/
def natToDigits (n : Nat) : List Char :=
  if h : n < 10 then [Nat.digitChar n]
  else natToDigits (n / 10) ++ [Nat.digitChar (n % 10)]
termination_by n
decreasing_by exact Nat.div_lt_self (by omega) (by omega)

/-- Removes trailing zero characters. -/
def dropTrailingZeros (l : List Char) : List Char :=
  (l.reverse.dropWhile (fun ch => ch == '0')).reverse

/-- Modelled rendering of a Python float with at most three decimal places
(the rounded cell coordinates of `create_svg`): the integer part, a dot, and
the fractional digits without trailing zeros (`.0` when integral). Only the
digits-and-dot character set of this rendering is load-bearing for the proved
properties, matching any faithful float formatting. -/
def pyFloatStr (q : ℚ) : String :=
  let ip : Nat := (Rat.floor q).toNat
  let fr : Nat := (Rat.floor ((q - (Rat.floor q : ℚ)) * 1000)).toNat
  if fr = 0 then ⟨natToDigits ip⟩ ++ ".0"
  else
    let ds := natToDigits fr
    ⟨natToDigits ip⟩ ++ "." ++ ⟨dropTrailingZeros (List.replicate (3 - ds.length) '0' ++ ds)⟩

/-- Python `round(x, 3)` (ties, which do not arise for the coordinates used,
are rounded up rather than to even). -/
def pyRound3 (q : ℚ) : ℚ := (Rat.floor (q * 1000 + 1 / 2) : ℚ) / 1000

/-- Models the external `vesta` library's `Color` enum as the list of
`(c.value, c.name.lower())` pairs; the values and names match the color-map
keys and their comments in `vestaboard_model.py`. -/
def vestaColorEnum : List (Int × String) :=
  [(0, "blank"), (63, "red"), (64, "orange"), (65, "yellow"), (66, "green"),
   (67, "blue"), (68, "violet"), (69, "white"), (70, "black"), (71, "filled")]

/-- The values of the `vesta` `Color` enum (`(c.value for c in Color)`). -/
def vestaColorValues : List Int := vestaColorEnum.map Prod.fst

/-- `Color(code).name.lower()` for a valid color code. -/
def vestaColorName (code : Int) : String :=
  (List.lookup code vestaColorEnum).getD ""

/-- Python `.replace("&", "&amp;")`: with a single-character needle this maps
each `&` to `&amp;` and keeps every other character. -/
def replaceAmp (s : String) : String :=
  String.join (s.data.map (fun ch =>
    if ch = '&' then "&amp;" else String.singleton ch))

/-- The `@font-face` block of `create_svg`; `encoded_font` stands for the
base64 encoding of the bundled font bytes (`get_font_bytes` reads them from a
packaged asset that is not part of the sources). -/
def svg_font_face (encoded_font : String) : String :=
  "@font-face \x7b\n        font-family: \"Vestaboard\";\n        src: url(\"data:font/otf;base64,"
    ++ encoded_font ++ "\") format(\"opentype\");\n      \x7d"

/-- One cell of the `create_svg` loop body: a filled rectangle classed by the
color name for color codes, otherwise a text glyph via `symbol` with `&`
HTML-escaped. -/
def svg_cell (row column : Nat) (code : Int) : String :=
  let xpos : ℚ := pyRound3 (2 / 10 + (column : ℚ) * (166 / 1000))
  let ypos : ℚ := pyRound3 (2 / 10 + (row : ℚ) * (24 / 100))
  if code ∈ vestaColorValues then
    "<rect class=\"char " ++ vestaColorName code ++ "\" x=\"" ++ pyFloatStr xpos
      ++ "\" y=\"" ++ pyFloatStr ypos ++ "\"/>"
  else
    "<text class=\"char\" x=\"" ++ pyFloatStr (xpos + 45 / 1000) ++ "\" y=\""
      ++ pyFloatStr ypos ++ "\">" ++ replaceAmp (symbol code) ++ "</text>"

/-- The inner `for column, code in enumerate(characters)` loop of
`create_svg`. -/
def svg_row_cells (row column : Nat) : List Int → String
  | [] => ""
  | code :: rest => svg_cell row column code ++ svg_row_cells row (column + 1) rest

/-- The outer `for row, characters in enumerate(data)` loop of `create_svg`. -/
def svg_rows (row : Nat) : List (List Int) → String
  | [] => ""
  | characters :: rest => svg_row_cells row 0 characters ++ svg_rows (row + 1) rest

/-- All cell markup of `create_svg`, in row-major order. -/
def svg_cells (data : List (List Int)) : String := svg_rows 0 data

/-- `helpers.create_svg`: builds the whole vector document; fails exactly when
`from_color` fails. `encoded_font` is the base64 payload embedded in the
`@font-face` block. -/
def create_svg (data : List (List Int)) (color : String)
    (encoded_font : String) : Except String String :=
  match VestaboardModel.from_color color (some data) with
  | Except.error e => Except.error e
  | Except.ok model =>
    Except.ok
      ("<svg xmlns=\"http://www.w3.org/2000/svg\" viewBox=\"0 0 4 1.77\" version=\"1.1\">"
        ++ ("<style> " ++ svg_font_face encoded_font ++ " </style>")
        ++ "<style> svg \x7b font-family: \"Vestaboard\", \"Regular\", sans-serif; text-anchor: middle; \x7d"
        ++ (".board \x7b fill: " ++ model.frame_color ++ "; stroke: "
            ++ model.bit_color ++ "; stroke-width: 0.02; \x7d")
        ++ (".char \x7b font-size: 0.14px; width: 0.09px; height: 0.11px; \x7d text.char \x7b fill: "
            ++ model.text_color ++ "; transform: translateY(0.105px); \x7d")
        ++ String.intercalate " " (model.color_map.map (fun p =>
            "." ++ vestaColorName p.1 ++ " \x7b fill: " ++ p.2 ++ "; \x7d"))
        ++ (".logo \x7b font-size: 0.10px; fill: " ++ model.bit_color
            ++ "; \x7d </style>")
        ++ "<rect class=\"board\" x=\"0.01\" y=\"0.01\" width=\"3.98\" height=\"1.75\" />"
        ++ svg_cells data
        ++ "<text class=\"logo\" x=\"50%\" y=\"1.68\">VESTABOARD</text></svg>")

/-- Number of (possibly overlapping) occurrences of `pat` in `s`. -/
def countOcc (pat s : List Char) : Nat :=
  match s with
  | [] => 0
  | c :: rest => (if pat.isPrefixOf (c :: rest) then 1 else 0) + countOcc pat rest

/-- The character run common and unique to the markup of every grid cell:
`class="char` (color cells continue with a space and the color class, text
cells with the closing quote). -/
def cellMarker : List Char := "class=\"char".data

/-- The wordmark text. -/
def wordmark : List Char := "VESTABOARD".data

/-- The last character of `x` exists and does not occur in `pat` (so no
occurrence of `pat` can start inside `x` and continue past it). -/
def lastSafeB (pat x : List Char) : Bool :=
  match x.getLast? with
  | none => false
  | some d => decide (d ∉ pat)

-- Sanity checks of the embedding on concrete inputs.
example : PRINTABLE.length = 72 := by decide

example : symbol 0 = " " := by decide

example : symbol 1 = "A" := by decide

example : symbol 47 = "&" := by decide

example : symbol 62 = "°" := by decide

example : symbol 71 = "■" := by decide

example : symbol (-1) = " " := by decide

example : symbol 1000 = " " := by decide

example : decode (Sum.inr [[0, 1, 2], [3, 4, 5]]) = " AB\nCDE" := by decide

example : decode (Sum.inl [0, 1, 2]) = " AB" := by decide

example : WHITE_COLOR_MAP =
    [(0, "#FFFFFF"), (63, "#DA291C"), (64, "#FA7400"), (65, "#FCB81B"),
     (66, "#1F9A44"), (67, "#2083D5"), (68, "#702F8A"), (69, "#000000"),
     (70, "#FFFFFF"), (71, "#000000")] := by decide

example : List.lookup (6, 22) MODEL_BY_SIZE = some MODEL_FLAGSHIP := by decide

example : List.lookup (3, 15) MODEL_BY_SIZE = some MODEL_NOTE := by decide

example : maxRowLen [[1, 2], [1, 2, 3], []] = 3 := by decide

/-! ## Helper lemmas -/

theorem ratFloor_eq_floor (q : ℚ) : Rat.floor q = ⌊q⌋ :=
  (Rat.floor_def' q).trans Rat.floor_def.symm

theorem foldl_max_const (l : List Nat) (n : Nat) (h : ∀ x ∈ l, x = n) :
    l.foldl max n = n := by
  induction l with
  | nil => rfl
  | cons a t ih =>
    have ha : a = n := h a (by simp)
    simp only [List.foldl_cons, ha, max_self]
    exact ih fun x hx => h x (by simp [hx])

theorem maxRowLen_const (data : List (List Int)) (n : Nat) (hne : data ≠ [])
    (h : ∀ r ∈ data, r.length = n) : maxRowLen data = n := by
  match data, hne with
  | r :: t, _ =>
    have hr : r.length = n := h r (by simp)
    simp only [maxRowLen, List.map_cons, List.foldl_cons, hr, Nat.zero_max]
    exact foldl_max_const _ _ fun x hx => by
      obtain ⟨y, hy, hxy⟩ := List.mem_map.mp hx
      exact hxy ▸ h y (by simp [hy])

theorem str_data_append (a b : String) : (a ++ b).data = a.data ++ b.data :=
  String.data_append a b

/-- A string member is an infix of `a ++ b ++ c` at the `b` position. -/
theorem str_infix_mid (a b c : String) : b.data <:+: (a ++ b ++ c).data :=
  ⟨a.data, c.data, by simp [str_data_append]⟩

theorem model_lookup_cases (m : String) (s : ModelSpec)
    (h : List.lookup m MODELS = some s) :
    (m = MODEL_FLAGSHIP
      ∧ s = { rows := 6, columns := 22, width := 412 / 10, height := 22,
              frame_thickness := 5 / 32, frame_border := 2 + 21 / 32 })
    ∨ (m = MODEL_NOTE
      ∧ s = { rows := 3, columns := 15, width := 284 / 10, height := 122 / 10,
              frame_thickness := 5 / 32, frame_border := 2,
              emoji_map := [(62, "❤️")] }) := by
  simp only [List.lookup, MODELS] at h
  cases h1 : (m == MODEL_FLAGSHIP) with
  | true =>
    simp only [h1] at h
    exact Or.inl ⟨by simpa using h1, by simpa using h.symm⟩
  | false =>
    simp only [h1] at h
    cases h2 : (m == MODEL_NOTE) with
    | true =>
      simp only [h2] at h
      exact Or.inr ⟨by simpa using h2, by simpa using h.symm⟩
    | false => simp only [h2] at h; cases h

theorem spec_cases (v : VestaboardModel) :
    v.spec = { rows := 6, columns := 22, width := 412 / 10, height := 22,
               frame_thickness := 5 / 32, frame_border := 2 + 21 / 32 }
    ∨ v.spec = { rows := 3, columns := 15, width := 284 / 10, height := 122 / 10,
                 frame_thickness := 5 / 32, frame_border := 2,
                 emoji_map := [(62, "❤️")] } := by
  have h := v.hmodel
  rw [Option.isSome_iff_exists] at h
  obtain ⟨s, hs⟩ := h
  have : v.spec = s := by simp [VestaboardModel.spec, hs]
  rcases model_lookup_cases v.model s hs with ⟨_, h2⟩ | ⟨_, h2⟩
  · exact Or.inl (this.trans h2)
  · exact Or.inr (this.trans h2)

theorem height_pos (v : VestaboardModel) : 0 < v.height := by
  rcases spec_cases v with h | h <;>
    simp only [VestaboardModel.height, h] <;> norm_num

theorem width_pos (v : VestaboardModel) : 0 < v.width := by
  rcases spec_cases v with h | h <;>
    simp only [VestaboardModel.width, h] <;> norm_num

/-! ## Claims -/

/-- C5: `symbol` is total: it returns the `PRINTABLE` character at the code
when `0 ≤ code < len(PRINTABLE)` and a single space otherwise; its result is
always one character long, and `symbol 0`, `symbol (-1)`, `symbol 1000` are
all a single space. -/
theorem claim_C5 :
    (∀ code : Int, (symbol code).length = 1)
    ∧ (∀ (code : Int) (c : Char), 0 ≤ code →
        PRINTABLE.get? code.toNat = some c → symbol code = String.singleton c)
    ∧ (∀ code : Int, code < 0 ∨ (PRINTABLE.length : Int) ≤ code →
        symbol code = " ")
    ∧ symbol 0 = " " ∧ symbol (-1) = " " ∧ symbol 1000 = " " := by
  refine ⟨fun code => ?_, fun code c h1 h2 => ?_, fun code h => ?_,
    by decide, by decide, by decide⟩
  · unfold symbol
    split <;> rfl
  · have h3 := List.get?_eq_some.mp h2
    obtain ⟨hlt, hget⟩ := h3
    have h4 : code < (PRINTABLE.length : Int) := by omega
    unfold symbol
    rw [dif_pos ⟨h1, h4⟩]
    exact congrArg String.singleton hget
  · unfold symbol
    rw [dif_neg]
    omega

theorem claim_C5_witness :
    symbol 7 = String.singleton 'G' ∧ symbol 1000 = " " :=
  ⟨claim_C5.2.1 7 'G' (by decide) (by decide),
   claim_C5.2.2.1 1000 (by decide)⟩

/-- C6: `decode` maps every row through `symbol` elementwise, joins each row
into a line and joins lines with newlines; a non-empty flat list decodes the
same as the one-row nested grid containing it. -/
theorem claim_C6 :
    (∀ g : List (List Int),
      decode (Sum.inr g) = String.intercalate "\n"
        (g.map (fun row => String.join (row.map symbol))))
    ∧ (∀ l : List Int, l ≠ [] → decode (Sum.inl l) = decode (Sum.inr [l])) := by
  constructor
  · intro g
    cases g with
    | nil => decide
    | cons r t => rfl
  · intro l _
    rfl

theorem claim_C6_witness :
    decode (Sum.inl [0, 1, 2]) = decode (Sum.inr [[0, 1, 2]]) :=
  claim_C6.2 [0, 1, 2] (by decide)

/-- C4: the white color map agrees with the black color map at every key
outside {0, 69, 70, 71} and differs from it at each of those four keys. -/
theorem claim_C4 :
    (∀ k : Int, k ∉ ([0, 69, 70, 71] : List Int) →
      List.lookup k WHITE_COLOR_MAP = List.lookup k BLACK_COLOR_MAP)
    ∧ (∀ k ∈ ([0, 69, 70, 71] : List Int),
      List.lookup k WHITE_COLOR_MAP ≠ List.lookup k BLACK_COLOR_MAP) := by
  constructor
  · intro k hk
    simp only [List.mem_cons, List.not_mem_nil, or_false, not_or] at hk
    obtain ⟨h0, h69, h70, h71⟩ := hk
    have e : WHITE_COLOR_MAP =
        [(0, "#FFFFFF"), (63, "#DA291C"), (64, "#FA7400"), (65, "#FCB81B"),
         (66, "#1F9A44"), (67, "#2083D5"), (68, "#702F8A"), (69, "#000000"),
         (70, "#FFFFFF"), (71, "#000000")] := by decide
    rw [e]
    simp only [BLACK_COLOR_MAP, List.lookup,
      beq_eq_false_iff_ne.mpr h0, beq_eq_false_iff_ne.mpr h69,
      beq_eq_false_iff_ne.mpr h70, beq_eq_false_iff_ne.mpr h71]
  · intro k hk
    fin_cases hk <;> decide

theorem claim_C4_witness :
    List.lookup 63 WHITE_COLOR_MAP = List.lookup 63 BLACK_COLOR_MAP ∧
      List.lookup 0 WHITE_COLOR_MAP ≠ List.lookup 0 BLACK_COLOR_MAP :=
  ⟨claim_C4.1 63 (by decide), claim_C4.2 0 (by decide)⟩

/-- C2: direct construction succeeds iff both the color and the model are
registered; otherwise it fails with an error; on success every derived
property agrees with the registry entries. -/
theorem claim_C2 (c m : String) :
    ((∃ v, VestaboardModel.make c m = Except.ok v)
        ↔ ((List.lookup c COLOR_SCHEMES).isSome
            ∧ (List.lookup m MODELS).isSome))
    ∧ (¬ ((List.lookup c COLOR_SCHEMES).isSome
            ∧ (List.lookup m MODELS).isSome) →
        ∃ e, VestaboardModel.make c m = Except.error e)
    ∧ (∀ v, VestaboardModel.make c m = Except.ok v →
        v.color = c ∧ v.model = m
        ∧ (∀ t, List.lookup c COLOR_SCHEMES = some t →
            v.frame_color = t.frame ∧ v.bit_color = t.bit
            ∧ v.text_color = t.text ∧ v.logo_color = t.logo
            ∧ v.color_map = t.color_map)
        ∧ (∀ s, List.lookup m MODELS = some s →
            v.rows = s.rows ∧ v.columns = s.columns ∧ v.width = s.width
            ∧ v.height = s.height ∧ v.frame_thickness = s.frame_thickness
            ∧ v.frame_border = s.frame_border ∧ v.emoji_map = s.emoji_map
            ∧ v.aspect_ratio = s.width / s.height)) := by
  by_cases hc : (List.lookup c COLOR_SCHEMES).isSome
  · by_cases hm : (List.lookup m MODELS).isSome
    · refine ⟨⟨fun _ => ⟨hc, hm⟩, fun _ => ⟨⟨c, m, hc, hm⟩, ?_⟩⟩,
        fun hn => absurd ⟨hc, hm⟩ hn, fun v hv => ?_⟩
      · simp [VestaboardModel.make, hc, hm]
      · simp only [VestaboardModel.make, hc, hm, dif_pos] at hv
        obtain rfl := (Except.ok.injEq _ _).mp hv
        refine ⟨rfl, rfl, fun t ht => ?_, fun s hs => ?_⟩
        · simp [VestaboardModel.frame_color, VestaboardModel.bit_color,
            VestaboardModel.text_color, VestaboardModel.logo_color,
            VestaboardModel.color_map, VestaboardModel.scheme, ht]
        · simp [VestaboardModel.rows, VestaboardModel.columns,
            VestaboardModel.width, VestaboardModel.height,
            VestaboardModel.frame_thickness, VestaboardModel.frame_border,
            VestaboardModel.emoji_map, VestaboardModel.aspect_ratio,
            VestaboardModel.spec, hs]
    · refine ⟨⟨fun hex => ?_, fun hand => absurd hand.2 hm⟩,
        fun _ => ⟨"Unknown model: " ++ pyRepr m, ?_⟩, fun v hv => ?_⟩
      · obtain ⟨v, hv⟩ := hex
        simp [VestaboardModel.make, hc, hm] at hv
      · simp [VestaboardModel.make, hc, hm]
      · exact absurd hv (by simp [VestaboardModel.make, hc, hm])
  · refine ⟨⟨fun hex => ?_, fun hand => absurd hand.1 hc⟩,
      fun _ => ⟨"Unknown color: " ++ pyRepr c, ?_⟩, fun v hv => ?_⟩
    · obtain ⟨v, hv⟩ := hex
      simp [VestaboardModel.make, hc] at hv
    · simp [VestaboardModel.make, hc]
    · exact absurd hv (by simp [VestaboardModel.make, hc])

theorem claim_C2_witness :
    ∃ v, VestaboardModel.make "black" "note" = Except.ok v :=
  (claim_C2 "black" "note").1.mpr (by decide)

/-- C1: `from_color` with no grid yields the flagship model; a 6x22 grid
yields a flagship board; a 3x15 grid yields the note model whose
`emoji_for_code 62` is the heart. -/
theorem claim_C1 (c : String) (hc : (List.lookup c COLOR_SCHEMES).isSome)
    (g6 g3 : List (List Int))
    (h6n : g6.length = 6) (h6r : ∀ r ∈ g6, r.length = 22)
    (h3n : g3.length = 3) (h3r : ∀ r ∈ g3, r.length = 15) :
    (∃ v, VestaboardModel.from_color c none = Except.ok v
        ∧ v.model = MODEL_FLAGSHIP ∧ v.is_flagship = true)
    ∧ (∃ v, VestaboardModel.from_color c (some g6) = Except.ok v
        ∧ v.is_flagship = true)
    ∧ (∃ v, VestaboardModel.from_color c (some g3) = Except.ok v
        ∧ v.model = MODEL_NOTE ∧ v.emoji_for_code 62 = some "❤️") := by
  have hm6 : List.lookup (g6.length, maxRowLen g6) MODEL_BY_SIZE
      = some MODEL_FLAGSHIP := by
    rw [h6n, maxRowLen_const g6 22 (by intro he; rw [he] at h6n; simp at h6n) h6r]
    decide
  have hm3 : List.lookup (g3.length, maxRowLen g3) MODEL_BY_SIZE
      = some MODEL_NOTE := by
    rw [h3n, maxRowLen_const g3 15 (by intro he; rw [he] at h3n; simp at h3n) h3r]
    decide
  have hflag : (List.lookup MODEL_FLAGSHIP MODELS).isSome = true := by decide
  have hnote : (List.lookup MODEL_NOTE MODELS).isSome = true := by decide
  refine ⟨⟨⟨c, MODEL_FLAGSHIP, hc, hflag⟩, ?_, rfl, rfl⟩,
    ⟨⟨c, MODEL_FLAGSHIP, hc, hflag⟩, ?_, rfl⟩,
    ⟨⟨c, MODEL_NOTE, hc, hnote⟩, ?_, rfl, rfl⟩⟩
  · simp [VestaboardModel.from_color, VestaboardModel.make, hc, hflag]
  · simp [VestaboardModel.from_color, VestaboardModel.make, hc, hm6, hflag]
  · simp [VestaboardModel.from_color, VestaboardModel.make, hc, hm3, hnote]

theorem claim_C1_witness :
    (∃ v, VestaboardModel.from_color "black" none = Except.ok v
        ∧ v.model = MODEL_FLAGSHIP ∧ v.is_flagship = true)
    ∧ (∃ v, VestaboardModel.from_color "black"
          (some (List.replicate 6 (List.replicate 22 0))) = Except.ok v
        ∧ v.is_flagship = true)
    ∧ (∃ v, VestaboardModel.from_color "black"
          (some (List.replicate 3 (List.replicate 15 0))) = Except.ok v
        ∧ v.model = MODEL_NOTE ∧ v.emoji_for_code 62 = some "❤️") :=
  claim_C1 "black" (by decide) _ _ (by decide) (by decide) (by decide) (by decide)

/-- C7: for a registered color and a grid whose shape matches no registered
model, `from_color` fails with an error mentioning the attempted shape
("RxC") and the color name. -/
theorem claim_C7 (c : String) (hc : (List.lookup c COLOR_SCHEMES).isSome)
    (d : List (List Int))
    (hshape : List.lookup (d.length, maxRowLen d) MODEL_BY_SIZE = none) :
    ∃ e, VestaboardModel.from_color c (some d) = Except.error e
      ∧ (toString d.length ++ "x" ++ toString (maxRowLen d)).data <:+: e.data
      ∧ c.data <:+: e.data := by
  refine ⟨"Unknown Vestaboard model: " ++ toString d.length ++ "x"
      ++ toString (maxRowLen d) ++ " " ++ pyRepr c, ?_, ?_, ?_⟩
  · simp [VestaboardModel.from_color, hshape]
  · refine ⟨"Unknown Vestaboard model: ".data,
      " ".data ++ (pyRepr c).data, ?_⟩
    simp [str_data_append, List.append_assoc]
  · refine ⟨("Unknown Vestaboard model: " ++ toString d.length ++ "x"
        ++ toString (maxRowLen d) ++ " ").data ++ [Char.ofNat 39],
      [Char.ofNat 39], ?_⟩
    simp [str_data_append, pyRepr, String.singleton, List.append_assoc]

theorem claim_C7_witness :
    ∃ e, VestaboardModel.from_color "black"
          (some (List.replicate 5 (List.replicate 10 0))) = Except.error e
      ∧ (toString (List.replicate 5 (List.replicate 10 (0 : Int))).length ++ "x"
          ++ toString (maxRowLen (List.replicate 5 (List.replicate 10 0)))).data
            <:+: e.data
      ∧ ("black" : String).data <:+: e.data :=
  claim_C7 "black" (by decide) (List.replicate 5 (List.replicate 10 0))
    (by decide)

/-- C10: an empty grid (zero rows) is not treated like an absent grid: it
fails with the invalid-configuration error reporting shape 0x0, while an
absent grid selects the flagship default. -/
theorem claim_C10 (c : String) (hc : (List.lookup c COLOR_SCHEMES).isSome) :
    (∃ e, VestaboardModel.from_color c (some []) = Except.error e
        ∧ ("0x0" : String).data <:+: e.data ∧ c.data <:+: e.data)
    ∧ (∃ v, VestaboardModel.from_color c none = Except.ok v
        ∧ v.model = MODEL_FLAGSHIP) := by
  have ht0 : toString (0 : Nat) = "0" := by decide
  have h00 : List.lookup ((0 : Nat), (0 : Nat)) MODEL_BY_SIZE = none := by decide
  have hflag : (List.lookup MODEL_FLAGSHIP MODELS).isSome = true := by decide
  constructor
  · refine ⟨"Unknown Vestaboard model: " ++ toString (0 : Nat) ++ "x"
        ++ toString (0 : Nat) ++ " " ++ pyRepr c, ?_, ?_, ?_⟩
    · rfl
    · exact ⟨"Unknown Vestaboard model: ".data, " ".data ++ (pyRepr c).data,
        by simp [str_data_append, List.append_assoc, ht0]⟩
    · exact ⟨("Unknown Vestaboard model: " ++ toString (0 : Nat) ++ "x"
          ++ toString (0 : Nat) ++ " ").data ++ [Char.ofNat 39],
        [Char.ofNat 39],
        by simp [str_data_append, pyRepr, String.singleton, List.append_assoc]⟩
  · exact ⟨⟨c, MODEL_FLAGSHIP, hc, hflag⟩,
      by simp [VestaboardModel.from_color, VestaboardModel.make, hc, hflag], rfl⟩

theorem claim_C10_witness :
    (∃ e, VestaboardModel.from_color "black" (some []) = Except.error e
        ∧ ("0x0" : String).data <:+: e.data ∧ ("black" : String).data <:+: e.data)
    ∧ (∃ v, VestaboardModel.from_color "black" none = Except.ok v
        ∧ v.model = MODEL_FLAGSHIP) :=
  claim_C10 "black" (by decide)

/-- C8: the raster renderer's output width is the truncation of
`physicalWidth * (targetHeight / physicalHeight)`, so the output
width/height ratio is within `1/targetHeight` of the model's aspect ratio. -/
theorem claim_C8 (v : VestaboardModel) (h : Int) (hpos : 0 < h) :
    create_png_width v h = ⌊v.width * ((h : ℚ) / v.height)⌋
    ∧ |((create_png_width v h : ℚ) / (h : ℚ)) - v.aspect_ratio|
        < 1 / (h : ℚ) := by
  have hh : (0 : ℚ) < (h : ℚ) := by exact_mod_cast hpos
  have hht := height_pos v
  have hw := width_pos v
  have ha0 : 0 ≤ v.width * ((h : ℚ) / v.height) :=
    mul_nonneg hw.le (div_nonneg hh.le hht.le)
  have e1 : create_png_width v h = ⌊v.width * ((h : ℚ) / v.height)⌋ := by
    rw [create_png_width, pyInt, if_pos ha0, ratFloor_eq_floor]
  refine ⟨e1, ?_⟩
  have easp : v.aspect_ratio = (v.width * ((h : ℚ) / v.height)) / (h : ℚ) := by
    have e2 : v.aspect_ratio = v.width / v.height := rfl
    have hne1 : v.height ≠ 0 := hht.ne'
    have hne2 : (h : ℚ) ≠ 0 := hh.ne'
    rw [e2]
    field_simp
    ring
  rw [e1, easp, div_sub_div_same, abs_div, abs_of_pos hh]
  gcongr
  rw [abs_sub_lt_iff]
  constructor <;>
    linarith [Int.floor_le (v.width * ((h : ℚ) / v.height)),
      Int.sub_one_lt_floor (v.width * ((h : ℚ) / v.height))]

theorem claim_C8_witness :
    create_png_width blackFlagship 1080
        = ⌊blackFlagship.width * (((1080 : Int) : ℚ) / blackFlagship.height)⌋
    ∧ |((create_png_width blackFlagship 1080 : ℚ) / ((1080 : Int) : ℚ))
        - blackFlagship.aspect_ratio| < 1 / ((1080 : Int) : ℚ) :=
  claim_C8 blackFlagship 1080 (by decide)

theorem size_lookup_cases (k : Nat × Nat) (name : String)
    (h : List.lookup k MODEL_BY_SIZE = some name) :
    name = MODEL_FLAGSHIP ∨ name = MODEL_NOTE := by
  have e : MODEL_BY_SIZE = [((6, 22), MODEL_FLAGSHIP), ((3, 15), MODEL_NOTE)] := by
    decide
  rw [e] at h
  cases h1 : (k == (6, 22)) with
  | true =>
    simp only [List.lookup, h1] at h
    exact Or.inl (by simpa using h.symm)
  | false =>
    simp only [List.lookup, h1] at h
    cases h2 : (k == (3, 15)) with
    | true =>
      simp only [h2] at h
      exact Or.inr (by simpa using h.symm)
    | false => simp only [h2] at h; cases h

/-- C3 counterexample: a ragged 6-row grid whose longest row has 22 entries
(the other five rows are empty) is accepted by `from_color` as a flagship
board even though its rows do not all have equal length. -/
theorem claim_C3_counterexample :
    VestaboardModel.from_color "black"
        (some (List.replicate 22 (0 : Int) :: List.replicate 5 ([] : List Int)))
      = Except.ok blackFlagship
    ∧ ∃ r1 ∈ (List.replicate 22 (0 : Int) :: List.replicate 5 ([] : List Int)),
        ∃ r2 ∈ (List.replicate 22 (0 : Int) :: List.replicate 5 ([] : List Int)),
          r1.length ≠ r2.length :=
  ⟨rfl, by decide⟩

/-- C3 amended: `from_color` accepts a grid iff `(row count, maximum row
length)` is a registered shape and the color is registered; equal row lengths
are not required (the shape lookup uses the maximum row length). -/
theorem claim_C3_amended (c : String) (d : List (List Int)) :
    (∃ v, VestaboardModel.from_color c (some d) = Except.ok v)
      ↔ ((List.lookup (d.length, maxRowLen d) MODEL_BY_SIZE).isSome
          ∧ (List.lookup c COLOR_SCHEMES).isSome) := by
  cases hs : List.lookup (d.length, maxRowLen d) MODEL_BY_SIZE with
  | none => simp [VestaboardModel.from_color, hs]
  | some name =>
    by_cases hc : (List.lookup c COLOR_SCHEMES).isSome
    · have hnm : (List.lookup name MODELS).isSome = true := by
        rcases size_lookup_cases _ _ hs with rfl | rfl <;> decide
      simp [VestaboardModel.from_color, hs, hc, VestaboardModel.make, hnm]
    · simp [VestaboardModel.from_color, hs, hc, VestaboardModel.make]

/-! ## Occurrence-counting toolkit for the vector renderer -/

theorem countOcc_cons (pat : List Char) (c : Char) (rest : List Char) :
    countOcc pat (c :: rest)
      = (if pat.isPrefixOf (c :: rest) then 1 else 0) + countOcc pat rest := rfl

theorem countOcc_eq_zero_of_short (pat s : List Char) (h : s.length < pat.length) :
    countOcc pat s = 0 := by
  induction s with
  | nil => rfl
  | cons c rest ih =>
    have hnp : ¬ (pat.isPrefixOf (c :: rest) = true) := by
      intro hp
      have hle := (List.isPrefixOf_iff_prefix.mp hp).length_le
      simp only [List.length_cons] at h hle
      omega
    have hr : rest.length < pat.length := by
      simp only [List.length_cons] at h; omega
    rw [countOcc_cons, if_neg hnp, ih hr]

theorem countOcc_eq_zero_of_missing (pat s : List Char) (ch : Char)
    (hch : ch ∈ pat) (hs : ch ∉ s) : countOcc pat s = 0 := by
  induction s with
  | nil => rfl
  | cons c rest ih =>
    have hnp : ¬ (pat.isPrefixOf (c :: rest) = true) := by
      intro hp
      exact hs ((List.isPrefixOf_iff_prefix.mp hp).subset hch)
    have hrest : ch ∉ rest := fun hr => hs (by simp [hr])
    rw [countOcc_cons, if_neg hnp, ih hrest]

theorem prefix_append_iff_left (p a b : List Char) (h : p.length ≤ a.length) :
    p <+: a ++ b ↔ p <+: a := by
  constructor
  · intro hp
    have he := List.prefix_iff_eq_take.mp hp
    rw [List.take_append_eq_append_take] at he
    have h0 : p.length - a.length = 0 := by omega
    rw [h0] at he
    simp only [List.take_zero, List.append_nil] at he
    exact List.prefix_iff_eq_take.mpr he
  · exact fun hp => hp.trans (List.prefix_append a b)

theorem prefix_split (p a b : List Char) (hp : p <+: a ++ b)
    (hlen : a.length ≤ p.length) :
    p.take a.length = a ∧ p.drop a.length <+: b := by
  have hpe := List.prefix_iff_eq_take.mp hp
  rw [List.take_append_eq_append_take] at hpe
  have ha : a.take p.length = a := List.take_of_length_le hlen
  rw [ha] at hpe
  constructor
  · rw [hpe]; exact List.take_left a _
  · rw [hpe, List.drop_left a _]; exact List.take_prefix _ b

theorem countOcc_append_h (pat x y : List Char)
    (hspan : ∀ k, 0 < k → k < pat.length →
      ¬ (pat.take k <:+ x ∧ pat.drop k <+: y)) :
    countOcc pat (x ++ y) = countOcc pat x + countOcc pat y := by
  induction x with
  | nil => simp [countOcc]
  | cons c x1 ih =>
    have hspan1 : ∀ k, 0 < k → k < pat.length →
        ¬ (pat.take k <:+ x1 ∧ pat.drop k <+: y) := by
      intro k h0 hk hand
      exact hspan k h0 hk ⟨hand.1.trans (List.suffix_cons c x1), hand.2⟩
    have hrec := ih hspan1
    have hhead : (if pat.isPrefixOf ((c :: x1) ++ y) then 1 else 0)
        = (if pat.isPrefixOf (c :: x1) then (1 : Nat) else 0) := by
      by_cases h1 : pat.isPrefixOf ((c :: x1) ++ y) = true
      · have hpp := List.isPrefixOf_iff_prefix.mp h1
        by_cases hlen : pat.length ≤ (c :: x1).length
        · have hpc := (prefix_append_iff_left pat (c :: x1) y hlen).mp hpp
          rw [if_pos h1, if_pos (List.isPrefixOf_iff_prefix.mpr hpc)]
        · exfalso
          have hlen2 : (c :: x1).length ≤ pat.length := by omega
          obtain ⟨ht, hd⟩ := prefix_split pat (c :: x1) y hpp hlen2
          apply hspan (c :: x1).length (by simp) (by omega)
          constructor
          · rw [ht]
          · exact hd
      · have h2 : ¬ (pat.isPrefixOf (c :: x1) = true) := by
          intro hp
          exact h1 (List.isPrefixOf_iff_prefix.mpr
            ((List.isPrefixOf_iff_prefix.mp hp).trans (List.prefix_append _ y)))
        rw [if_neg h1, if_neg h2]
    have e1 : (c :: x1) ++ y = c :: (x1 ++ y) := rfl
    rw [e1, countOcc_cons, ← e1, hhead, countOcc_cons, hrec]
    omega

theorem lastSafeB_spec (pat x : List Char) (h : lastSafeB pat x = true) :
    ∃ d, x.getLast? = some d ∧ d ∉ pat := by
  unfold lastSafeB at h
  cases hx : x.getLast? with
  | none => rw [hx] at h; cases h
  | some d =>
    rw [hx] at h
    exact ⟨d, rfl, of_decide_eq_true h⟩

theorem lastSafeB_of (pat x : List Char) (d : Char) (hx : x.getLast? = some d)
    (hd : d ∉ pat) : lastSafeB pat x = true := by
  unfold lastSafeB
  rw [hx]
  exact decide_eq_true hd

theorem span_take_side (pat x : List Char) (d : Char) (hxd : x.getLast? = some d)
    (hd : d ∉ pat) :
    ∀ k, 0 < k → k < pat.length → ¬ (pat.take k <:+ x) := by
  intro k h0 hk hs
  have hne : pat.take k ≠ [] := by
    apply List.ne_nil_of_length_pos
    rw [List.length_take]
    omega
  obtain ⟨w, hw⟩ := hs
  rw [← hw, List.getLast?_append_of_ne_nil w hne] at hxd
  have hmem : d ∈ pat.take k := by
    rw [List.getLast?_eq_getLast _ hne] at hxd
    have := Option.some.inj hxd
    rw [← this]
    exact List.getLast_mem hne
  exact hd (List.take_subset k pat hmem)

theorem span_drop_side_head (pat y : List Char) (d : Char)
    (hyd : y.head? = some d)
    (hd : ∀ k, k < pat.length → 0 < k → (pat.drop k).head? ≠ some d) :
    ∀ k, 0 < k → k < pat.length → ¬ (pat.drop k <+: y) := by
  intro k h0 hk hp
  have hne : pat.drop k ≠ [] := by
    apply List.ne_nil_of_length_pos
    rw [List.length_drop]
    omega
  obtain ⟨t, ht⟩ := hp
  rw [← ht, List.head?_append_of_ne_nil _ hne] at hyd
  exact hd k hk h0 hyd

theorem span_drop_side_follower (pat f rest : List Char)
    (hlen : pat.length ≤ f.length + 1)
    (hall : ∀ k, k < pat.length → 0 < k → ¬ ((pat.drop k).isPrefixOf f = true)) :
    ∀ k, 0 < k → k < pat.length → ¬ (pat.drop k <+: f ++ rest) := by
  intro k h0 hk hp
  have hl : (pat.drop k).length ≤ f.length := by
    rw [List.length_drop]; omega
  have := (prefix_append_iff_left _ f rest hl).mp hp
  exact hall k hk h0 (List.isPrefixOf_iff_prefix.mpr this)

theorem countOcc_step (pat x y : List Char) (hsafe : lastSafeB pat x = true) :
    countOcc pat (x ++ y) = countOcc pat x + countOcc pat y := by
  obtain ⟨d, hx, hd⟩ := lastSafeB_spec pat x hsafe
  exact countOcc_append_h pat x y
    (fun k h0 hk hand => span_take_side pat x d hx hd k h0 hk hand.1)

theorem countOcc_step0 (pat x y : List Char) (hsafe : lastSafeB pat x = true)
    (hx : countOcc pat x = 0) : countOcc pat (x ++ y) = countOcc pat y := by
  rw [countOcc_step pat x y hsafe, hx, Nat.zero_add]

theorem countOcc_step1 (pat x y : List Char) (hsafe : lastSafeB pat x = true)
    (hx : countOcc pat x = 1) : countOcc pat (x ++ y) = 1 + countOcc pat y := by
  rw [countOcc_step pat x y hsafe, hx]

theorem countOcc_step_headsafe (pat x y : List Char) (d : Char)
    (hyd : y.head? = some d)
    (hd : ∀ k, k < pat.length → 0 < k → (pat.drop k).head? ≠ some d)
    (hx : countOcc pat x = 0) :
    countOcc pat (x ++ y) = countOcc pat y := by
  rw [countOcc_append_h pat x y
    (fun k h0 hk hand => span_drop_side_head pat y d hyd hd k h0 hk hand.2), hx,
    Nat.zero_add]

theorem countOcc_step_font (pat f b rest : List Char)
    (hlen : pat.length ≤ b.length + 1)
    (hall : ∀ k, k < pat.length → 0 < k → ¬ ((pat.drop k).isPrefixOf b = true))
    (hf : countOcc pat f = 0) :
    countOcc pat (f ++ (b ++ rest)) = countOcc pat (b ++ rest) := by
  rw [countOcc_append_h pat f (b ++ rest)
    (fun k h0 hk hand => span_drop_side_follower pat b rest hlen hall k h0 hk hand.2),
    hf, Nat.zero_add]

/-! ## Character-set facts for the pieces of the vector document -/

theorem digitChar_mem_digitChars (n : Nat) (h : n < 10) :
    Nat.digitChar n ∈ digitChars := by
  interval_cases n <;> decide

theorem natToDigits_subset (n : Nat) :
    ∀ ch ∈ natToDigits n, ch ∈ digitChars := by
  induction n using Nat.strong_induction_on with
  | _ n ih =>
    intro ch hch
    rw [natToDigits] at hch
    split at hch
    · next h =>
      simp only [List.mem_singleton] at hch
      exact hch ▸ digitChar_mem_digitChars n h
    · next h =>
      rcases List.mem_append.mp hch with h1 | h1
      · exact ih (n / 10) (Nat.div_lt_self (by omega) (by omega)) ch h1
      · simp only [List.mem_singleton] at h1
        exact h1 ▸ digitChar_mem_digitChars (n % 10) (Nat.mod_lt n (by omega))

theorem natToDigits_ne_nil (n : Nat) : natToDigits n ≠ [] := by
  rw [natToDigits]
  split
  · simp
  · simp

theorem dropTrailingZeros_subset (l : List Char) :
    ∀ ch ∈ dropTrailingZeros l, ch ∈ l := by
  intro ch hch
  unfold dropTrailingZeros at hch
  rw [List.mem_reverse] at hch
  have := (List.dropWhile_suffix (fun c => c == '0')).subset hch
  exact List.mem_reverse.mp this

theorem pyFloatStr_chars (q : ℚ) :
    ∀ ch ∈ (pyFloatStr q).data, ch ∈ '.' :: digitChars := by
  intro ch hch
  unfold pyFloatStr at hch
  simp only [] at hch
  split at hch
  · rw [str_data_append] at hch
    rcases List.mem_append.mp hch with h1 | h1
    · exact List.mem_cons_of_mem _ (natToDigits_subset _ ch h1)
    · have h2 : ch ∈ ['.', '0'] := h1
      fin_cases h2 <;> decide
  · rw [str_data_append, str_data_append] at hch
    rcases List.mem_append.mp hch with h1 | h1
    · rcases List.mem_append.mp h1 with h2 | h2
      · exact List.mem_cons_of_mem _ (natToDigits_subset _ ch h2)
      · have h3 : ch ∈ ['.'] := h2
        fin_cases h3
        decide
    · have h2 := dropTrailingZeros_subset _ ch h1
      rcases List.mem_append.mp h2 with h3 | h3
      · have := List.eq_of_mem_replicate h3
        simp [this, digitChars]
      · exact List.mem_cons_of_mem _ (natToDigits_subset _ ch h3)

theorem pyFloatStr_ne_nil (q : ℚ) : (pyFloatStr q).data ≠ [] := by
  unfold pyFloatStr
  simp only []
  split
  · rw [str_data_append]
    simp [natToDigits_ne_nil]
  · rw [str_data_append, str_data_append]
    simp [natToDigits_ne_nil]

theorem symbol_is_singleton (code : Int) :
    ∃ ch, ch ∈ PRINTABLE ∧ symbol code = String.singleton ch := by
  unfold symbol
  split
  · exact ⟨_, List.get_mem _ _ _, rfl⟩
  · exact ⟨' ', by decide, rfl⟩

theorem string_join_data_aux (t : List String) (acc : String) :
    (t.foldl (fun a b => a ++ b) acc).data
      = acc.data ++ (t.map String.data).join := by
  induction t generalizing acc with
  | nil => simp
  | cons s rest ih =>
    rw [List.foldl_cons, ih, str_data_append]
    simp [List.append_assoc]

theorem string_join_data (l : List String) :
    (String.join l).data = (l.map String.data).join := by
  rw [String.join, string_join_data_aux]
  rfl

theorem glyph_short (code : Int) :
    (replaceAmp (symbol code)).data.length ≤ 5 := by
  obtain ⟨ch, _, he⟩ := symbol_is_singleton code
  rw [he]
  unfold replaceAmp
  rw [string_join_data]
  have hd : (String.singleton ch).data = [ch] := rfl
  rw [hd]
  by_cases h : ch = '&' <;> simp [h]

theorem vestaColorName_cases (code : Int) (h : code ∈ vestaColorValues) :
    vestaColorName code ∈ (["blank", "red", "orange", "yellow", "green",
      "blue", "violet", "white", "black", "filled"] : List String) := by
  fin_cases h <;> decide

theorem countOcc_name_step (pat : List Char) (code : Int) (y : List Char)
    (h : code ∈ vestaColorValues)
    (hall : ∀ s ∈ (["blank", "red", "orange", "yellow", "green", "blue",
        "violet", "white", "black", "filled"] : List String),
      lastSafeB pat s.data = true ∧ countOcc pat s.data = 0) :
    countOcc pat ((vestaColorName code).data ++ y) = countOcc pat y := by
  obtain ⟨h1, h2⟩ := hall _ (vestaColorName_cases code h)
  exact countOcc_step0 _ _ _ h1 h2

theorem head_of_float_append (q : ℚ) (rest : List Char) :
    ∃ d, ((pyFloatStr q).data ++ rest).head? = some d ∧ d ∈ '.' :: digitChars := by
  have hne := pyFloatStr_ne_nil q
  refine ⟨(pyFloatStr q).data.head hne, ?_, pyFloatStr_chars q _ (List.head_mem hne)⟩
  rw [List.head?_append_of_ne_nil _ hne, List.head?_eq_head hne]

theorem lastSafeB_pyFloatStr (pat : List Char) (q : ℚ)
    (hdisj : ∀ d ∈ '.' :: digitChars, d ∉ pat) :
    lastSafeB pat (pyFloatStr q).data = true := by
  have hne := pyFloatStr_ne_nil q
  apply lastSafeB_of pat _ ((pyFloatStr q).data.getLast hne)
  · exact List.getLast?_eq_getLast _ hne
  · exact hdisj _ (pyFloatStr_chars q _ (List.getLast_mem hne))

/-- Absorbs an atom ending in `"` (or any character) that is followed by a
formatted coordinate: no occurrence can spill over because the coordinate
starts with a digit or dot. -/
theorem countOcc_quote_step (pat x : List Char) (q : ℚ) (rest : List Char)
    (n : Nat) (hx : countOcc pat x = n)
    (hsafe : ∀ d ∈ '.' :: digitChars, ∀ k, k < pat.length → 0 < k →
      (pat.drop k).head? ≠ some d) :
    countOcc pat (x ++ ((pyFloatStr q).data ++ rest))
      = n + countOcc pat ((pyFloatStr q).data ++ rest) := by
  obtain ⟨d, hd1, hd2⟩ := head_of_float_append q rest
  rw [countOcc_append_h pat x _ (fun k h0 hk hand =>
    span_drop_side_head pat _ d hd1 (fun k2 a b => hsafe d hd2 k2 a b) k h0 hk hand.2),
    hx]

/-- Absorbs a formatted-coordinate atom: it contains no occurrence (its
characters are digits and dots while `pat` contains `ch`), and its last
character is a digit or dot not occurring in `pat`. -/
theorem countOcc_float_step (pat : List Char) (q : ℚ) (y : List Char)
    (hdisj : ∀ d ∈ '.' :: digitChars, d ∉ pat)
    (ch : Char) (hch : ch ∈ pat) (hchd : ch ∉ '.' :: digitChars) :
    countOcc pat ((pyFloatStr q).data ++ y) = countOcc pat y := by
  apply countOcc_step0
  · exact lastSafeB_pyFloatStr pat q hdisj
  · apply countOcc_eq_zero_of_missing pat _ ch hch
    intro hmem
    exact hchd (pyFloatStr_chars q ch hmem)

/-- Absorbs a glyph atom followed by `</text>`: the glyph is at most five
characters (shorter than `pat`) and nothing can spill over because the
follower starts with `<`. -/
theorem countOcc_glyph_step (pat : List Char) (code : Int) (rest : List Char)
    (hrest : rest.head? = some '<')
    (hd : ∀ k, k < pat.length → 0 < k → (pat.drop k).head? ≠ some '<')
    (hlong : 5 < pat.length) :
    countOcc pat ((replaceAmp (symbol code)).data ++ rest) = countOcc pat rest := by
  apply countOcc_step_headsafe pat _ rest '<' hrest hd
  exact countOcc_eq_zero_of_short _ _ (lt_of_le_of_lt (glyph_short code) hlong)

theorem cellMarker_count_cell (row col : Nat) (code : Int) :
    countOcc cellMarker (svg_cell row col code).data = 1 := by
  unfold svg_cell
  simp only []
  by_cases hcol : code ∈ vestaColorValues
  · rw [if_pos hcol]
    simp only [str_data_append, List.append_assoc]
    rw [countOcc_step1 _ _ _ (by decide) (by decide)]
    rw [countOcc_name_step _ code _ hcol (by decide)]
    rw [countOcc_quote_step _ _ _ _ 0 (by decide) (by decide)]
    rw [countOcc_float_step _ _ _ (by decide) (Char.ofNat 34) (by decide) (by decide)]
    rw [countOcc_quote_step _ _ _ _ 0 (by decide) (by decide)]
    rw [countOcc_float_step _ _ _ (by decide) (Char.ofNat 34) (by decide) (by decide)]
    rw [show countOcc cellMarker ("\"/>" : String).data = 0 from by decide]
  · rw [if_neg hcol]
    simp only [str_data_append, List.append_assoc]
    rw [countOcc_quote_step _ _ _ _ 1 (by decide) (by decide)]
    rw [countOcc_float_step _ _ _ (by decide) (Char.ofNat 34) (by decide) (by decide)]
    rw [countOcc_quote_step _ _ _ _ 0 (by decide) (by decide)]
    rw [countOcc_float_step _ _ _ (by decide) (Char.ofNat 34) (by decide) (by decide)]
    rw [countOcc_step0 _ _ _ (by decide) (by decide)]
    rw [countOcc_glyph_step _ code _ (by decide) (by decide) (by decide)]
    rw [show countOcc cellMarker ("</text>" : String).data = 0 from by decide]

theorem wordmark_count_cell (row col : Nat) (code : Int) :
    countOcc wordmark (svg_cell row col code).data = 0 := by
  unfold svg_cell
  simp only []
  by_cases hcol : code ∈ vestaColorValues
  · rw [if_pos hcol]
    simp only [str_data_append, List.append_assoc]
    rw [countOcc_step0 _ _ _ (by decide) (by decide)]
    rw [countOcc_name_step _ code _ hcol (by decide)]
    rw [countOcc_step0 _ _ _ (by decide) (by decide)]
    rw [countOcc_float_step _ _ _ (by decide) 'V' (by decide) (by decide)]
    rw [countOcc_step0 _ _ _ (by decide) (by decide)]
    rw [countOcc_float_step _ _ _ (by decide) 'V' (by decide) (by decide)]
    decide
  · rw [if_neg hcol]
    simp only [str_data_append, List.append_assoc]
    rw [countOcc_step0 _ _ _ (by decide) (by decide)]
    rw [countOcc_float_step _ _ _ (by decide) 'V' (by decide) (by decide)]
    rw [countOcc_step0 _ _ _ (by decide) (by decide)]
    rw [countOcc_float_step _ _ _ (by decide) 'V' (by decide) (by decide)]
    rw [countOcc_step0 _ _ _ (by decide) (by decide)]
    rw [countOcc_glyph_step _ code _ (by decide) (by decide) (by decide)]
    decide

theorem getLast?_append_right (a b : List Char) (d : Char)
    (h : b.getLast? = some d) : (a ++ b).getLast? = some d := by
  rw [List.getLast?_append_of_ne_nil a (by intro he; rw [he] at h; cases h)]
  exact h

theorem svg_cell_last (row col : Nat) (code : Int) :
    (svg_cell row col code).data.getLast? = some '>' := by
  unfold svg_cell
  simp only []
  split <;> simp only [str_data_append, List.append_assoc] <;>
    (repeat apply getLast?_append_right) <;> decide

theorem svg_row_cells_last (row : Nat) (l : List Int) (h : l ≠ []) :
    ∀ col, (svg_row_cells row col l).data.getLast? = some '>' := by
  induction l with
  | nil => cases h rfl
  | cons code rest ih =>
    intro col
    rw [show svg_row_cells row col (code :: rest)
        = svg_cell row col code ++ svg_row_cells row (col + 1) rest from rfl,
      str_data_append]
    cases rest with
    | nil =>
      rw [show svg_row_cells row (col + 1) [] = "" from rfl]
      simpa using svg_cell_last row col code
    | cons a t =>
      exact getLast?_append_right _ _ '>' (ih (by simp) (col + 1))

theorem svg_rows_last (data : List (List Int)) (hne : data ≠ [])
    (hr : ∀ r ∈ data, r ≠ []) :
    ∀ row, (svg_rows row data).data.getLast? = some '>' := by
  induction data with
  | nil => cases hne rfl
  | cons chars rest ih =>
    intro row
    rw [show svg_rows row (chars :: rest)
        = svg_row_cells row 0 chars ++ svg_rows (row + 1) rest from rfl,
      str_data_append]
    cases rest with
    | nil =>
      rw [show svg_rows (row + 1) [] = "" from rfl]
      simpa using svg_row_cells_last row chars (hr chars (by simp)) 0
    | cons a t =>
      exact getLast?_append_right _ _ '>'
        (ih (by simp) (fun r hmem => hr r (by simp [hmem])) (row + 1))

theorem countOcc_row_cellMarker (row : Nat) (l : List Int) :
    ∀ col, countOcc cellMarker (svg_row_cells row col l).data = l.length := by
  induction l with
  | nil => intro col; rfl
  | cons code rest ih =>
    intro col
    rw [show svg_row_cells row col (code :: rest)
        = svg_cell row col code ++ svg_row_cells row (col + 1) rest from rfl,
      str_data_append]
    rw [countOcc_step _ _ _ (lastSafeB_of _ _ '>' (svg_cell_last row col code)
      (by decide))]
    rw [cellMarker_count_cell, ih (col + 1)]
    simp [Nat.add_comm]

theorem countOcc_row_wordmark (row : Nat) (l : List Int) :
    ∀ col, countOcc wordmark (svg_row_cells row col l).data = 0 := by
  induction l with
  | nil => intro col; rfl
  | cons code rest ih =>
    intro col
    rw [show svg_row_cells row col (code :: rest)
        = svg_cell row col code ++ svg_row_cells row (col + 1) rest from rfl,
      str_data_append]
    rw [countOcc_step _ _ _ (lastSafeB_of _ _ '>' (svg_cell_last row col code)
      (by decide))]
    rw [wordmark_count_cell, ih (col + 1)]

theorem countOcc_rows_cellMarker (data : List (List Int))
    (hr : ∀ r ∈ data, r ≠ []) :
    ∀ row, countOcc cellMarker (svg_rows row data).data
      = (data.map List.length).sum := by
  induction data with
  | nil => intro row; rfl
  | cons chars rest ih =>
    intro row
    rw [show svg_rows row (chars :: rest)
        = svg_row_cells row 0 chars ++ svg_rows (row + 1) rest from rfl,
      str_data_append]
    rw [countOcc_step _ _ _ (lastSafeB_of _ _ '>'
      (svg_row_cells_last row chars (hr chars (by simp)) 0) (by decide))]
    rw [countOcc_row_cellMarker, ih (fun r hmem => hr r (by simp [hmem])) (row + 1)]
    simp

theorem countOcc_rows_wordmark (data : List (List Int))
    (hr : ∀ r ∈ data, r ≠ []) :
    ∀ row, countOcc wordmark (svg_rows row data).data = 0 := by
  induction data with
  | nil => intro row; rfl
  | cons chars rest ih =>
    intro row
    rw [show svg_rows row (chars :: rest)
        = svg_row_cells row 0 chars ++ svg_rows (row + 1) rest from rfl,
      str_data_append]
    rw [countOcc_step _ _ _ (lastSafeB_of _ _ '>'
      (svg_row_cells_last row chars (hr chars (by simp)) 0) (by decide))]
    rw [countOcc_row_wordmark, ih (fun r hmem => hr r (by simp [hmem])) (row + 1)]

theorem sum_map_length_const (data : List (List Int)) (w : Nat)
    (h : ∀ r ∈ data, r.length = w) :
    (data.map List.length).sum = data.length * w := by
  induction data with
  | nil => simp
  | cons r rest ih =>
    simp only [List.map_cons, List.sum_cons, List.length_cons,
      h r (by simp), ih (fun s hs => h s (by simp [hs]))]
    ring

theorem color_lookup_cases (c : String)
    (h : (List.lookup c COLOR_SCHEMES).isSome) :
    c = COLOR_BLACK ∨ c = COLOR_WHITE := by
  rw [Option.isSome_iff_exists] at h
  obtain ⟨t, ht⟩ := h
  simp only [List.lookup, COLOR_SCHEMES] at ht
  cases h1 : (c == COLOR_BLACK) with
  | true => exact Or.inl (by simpa using h1)
  | false =>
    simp only [h1] at ht
    cases h2 : (c == COLOR_WHITE) with
    | true => exact Or.inr (by simpa using h2)
    | false => simp only [h2] at ht; cases ht

theorem size_lookup_full (k : Nat × Nat) (name : String)
    (h : List.lookup k MODEL_BY_SIZE = some name) :
    (k = (6, 22) ∧ name = MODEL_FLAGSHIP)
      ∨ (k = (3, 15) ∧ name = MODEL_NOTE) := by
  have e : MODEL_BY_SIZE = [((6, 22), MODEL_FLAGSHIP), ((3, 15), MODEL_NOTE)] := by
    decide
  rw [e] at h
  cases h1 : (k == (6, 22)) with
  | true =>
    simp only [List.lookup, h1] at h
    exact Or.inl ⟨by simpa using h1, by simpa using h.symm⟩
  | false =>
    simp only [List.lookup, h1] at h
    cases h2 : (k == (3, 15)) with
    | true =>
      simp only [h2] at h
      exact Or.inr ⟨by simpa using h2, by simpa using h.symm⟩
    | false => simp only [h2] at h; cases h

set_option maxRecDepth 100000 in
theorem svg_counts_black (data : List (List Int)) (encoded_font : String)
    (mname : String) (hmOk : (List.lookup mname MODELS).isSome = true)
    (hcolOk : (List.lookup COLOR_BLACK COLOR_SCHEMES).isSome = true)
    (hfc : VestaboardModel.from_color COLOR_BLACK (some data)
        = Except.ok ⟨COLOR_BLACK, mname, hcolOk, hmOk⟩)
    (hdne : data ≠ []) (hrne : ∀ r ∈ data, r ≠ [])
    (hfq : Char.ofNat 34 ∉ encoded_font.data)
    (hfwm : countOcc wordmark encoded_font.data = 0) :
    ∃ s, create_svg data COLOR_BLACK encoded_font = Except.ok s
      ∧ countOcc cellMarker s.data = (data.map List.length).sum
      ∧ countOcc wordmark s.data = 1 := by
  simp only [create_svg, hfc]
  refine ⟨_, rfl, ?_, ?_⟩
  · simp only [show VestaboardModel.frame_color
        ⟨COLOR_BLACK, mname, hcolOk, hmOk⟩ = "#171818" from rfl,
      show VestaboardModel.bit_color
        ⟨COLOR_BLACK, mname, hcolOk, hmOk⟩ = "#141414" from rfl,
      show VestaboardModel.text_color
        ⟨COLOR_BLACK, mname, hcolOk, hmOk⟩ = "#FFFFFF" from rfl,
      show VestaboardModel.color_map
        ⟨COLOR_BLACK, mname, hcolOk, hmOk⟩ = BLACK_COLOR_MAP from rfl,
      svg_font_face, svg_cells, str_data_append, List.append_assoc]
    repeat rw [countOcc_step0 cellMarker _ _ (by decide) (by decide)]
    rw [countOcc_step_font cellMarker encoded_font.data _ _ (by decide) (by decide)
      (countOcc_eq_zero_of_missing _ _ (Char.ofNat 34) (by decide) hfq)]
    repeat rw [countOcc_step0 cellMarker _ _ (by decide) (by decide)]
    rw [countOcc_step cellMarker _ _ (lastSafeB_of _ _ '>'
      (svg_rows_last data hdne hrne 0) (by decide))]
    rw [countOcc_rows_cellMarker data hrne 0,
      show countOcc cellMarker
        ("<text class=\"logo\" x=\"50%\" y=\"1.68\">VESTABOARD</text></svg>" : String).data
        = 0 from by decide]
    omega
  · simp only [show VestaboardModel.frame_color
        ⟨COLOR_BLACK, mname, hcolOk, hmOk⟩ = "#171818" from rfl,
      show VestaboardModel.bit_color
        ⟨COLOR_BLACK, mname, hcolOk, hmOk⟩ = "#141414" from rfl,
      show VestaboardModel.text_color
        ⟨COLOR_BLACK, mname, hcolOk, hmOk⟩ = "#FFFFFF" from rfl,
      show VestaboardModel.color_map
        ⟨COLOR_BLACK, mname, hcolOk, hmOk⟩ = BLACK_COLOR_MAP from rfl,
      svg_font_face, svg_cells, str_data_append, List.append_assoc]
    repeat rw [countOcc_step0 wordmark _ _ (by decide) (by decide)]
    rw [countOcc_step_font wordmark encoded_font.data _ _ (by decide) (by decide)
      hfwm]
    repeat rw [countOcc_step0 wordmark _ _ (by decide) (by decide)]
    rw [countOcc_step wordmark _ _ (lastSafeB_of _ _ '>'
      (svg_rows_last data hdne hrne 0) (by decide))]
    rw [countOcc_rows_wordmark data hrne 0,
      show countOcc wordmark
        ("<text class=\"logo\" x=\"50%\" y=\"1.68\">VESTABOARD</text></svg>" : String).data
        = 1 from by decide]

set_option maxRecDepth 100000 in
theorem svg_counts_white (data : List (List Int)) (encoded_font : String)
    (mname : String) (hmOk : (List.lookup mname MODELS).isSome = true)
    (hcolOk : (List.lookup COLOR_WHITE COLOR_SCHEMES).isSome = true)
    (hfc : VestaboardModel.from_color COLOR_WHITE (some data)
        = Except.ok ⟨COLOR_WHITE, mname, hcolOk, hmOk⟩)
    (hdne : data ≠ []) (hrne : ∀ r ∈ data, r ≠ [])
    (hfq : Char.ofNat 34 ∉ encoded_font.data)
    (hfwm : countOcc wordmark encoded_font.data = 0) :
    ∃ s, create_svg data COLOR_WHITE encoded_font = Except.ok s
      ∧ countOcc cellMarker s.data = (data.map List.length).sum
      ∧ countOcc wordmark s.data = 1 := by
  simp only [create_svg, hfc]
  refine ⟨_, rfl, ?_, ?_⟩
  · simp only [show VestaboardModel.frame_color
        ⟨COLOR_WHITE, mname, hcolOk, hmOk⟩ = "#F5F5F7" from rfl,
      show VestaboardModel.bit_color
        ⟨COLOR_WHITE, mname, hcolOk, hmOk⟩ = "#FFFFFF" from rfl,
      show VestaboardModel.text_color
        ⟨COLOR_WHITE, mname, hcolOk, hmOk⟩ = "#000000" from rfl,
      show VestaboardModel.color_map
        ⟨COLOR_WHITE, mname, hcolOk, hmOk⟩ = WHITE_COLOR_MAP from rfl,
      svg_font_face, svg_cells, str_data_append, List.append_assoc]
    repeat rw [countOcc_step0 cellMarker _ _ (by decide) (by decide)]
    rw [countOcc_step_font cellMarker encoded_font.data _ _ (by decide) (by decide)
      (countOcc_eq_zero_of_missing _ _ (Char.ofNat 34) (by decide) hfq)]
    repeat rw [countOcc_step0 cellMarker _ _ (by decide) (by decide)]
    rw [countOcc_step cellMarker _ _ (lastSafeB_of _ _ '>'
      (svg_rows_last data hdne hrne 0) (by decide))]
    rw [countOcc_rows_cellMarker data hrne 0,
      show countOcc cellMarker
        ("<text class=\"logo\" x=\"50%\" y=\"1.68\">VESTABOARD</text></svg>" : String).data
        = 0 from by decide]
    omega
  · simp only [show VestaboardModel.frame_color
        ⟨COLOR_WHITE, mname, hcolOk, hmOk⟩ = "#F5F5F7" from rfl,
      show VestaboardModel.bit_color
        ⟨COLOR_WHITE, mname, hcolOk, hmOk⟩ = "#FFFFFF" from rfl,
      show VestaboardModel.text_color
        ⟨COLOR_WHITE, mname, hcolOk, hmOk⟩ = "#000000" from rfl,
      show VestaboardModel.color_map
        ⟨COLOR_WHITE, mname, hcolOk, hmOk⟩ = WHITE_COLOR_MAP from rfl,
      svg_font_face, svg_cells, str_data_append, List.append_assoc]
    repeat rw [countOcc_step0 wordmark _ _ (by decide) (by decide)]
    rw [countOcc_step_font wordmark encoded_font.data _ _ (by decide) (by decide)
      hfwm]
    repeat rw [countOcc_step0 wordmark _ _ (by decide) (by decide)]
    rw [countOcc_step wordmark _ _ (lastSafeB_of _ _ '>'
      (svg_rows_last data hdne hrne 0) (by decide))]
    rw [countOcc_rows_wordmark data hrne 0,
      show countOcc wordmark
        ("<text class=\"logo\" x=\"50%\" y=\"1.68\">VESTABOARD</text></svg>" : String).data
        = 1 from by decide]

/-- C9: for every registered color and every rectangular grid of a registered
shape, the vector renderer's output contains exactly `rows * columns` cell
shapes (counted by the per-cell marker `class="char`, emitted once per cell as
a color rectangle or an escaped text glyph) and exactly one wordmark.
`encoded_font` stands for the base64 payload of the bundled font; being
base64 it contains no double quote, and it is assumed not to contain the
wordmark text itself. -/
theorem claim_C9 (color : String) (data : List (List Int)) (w : Nat)
    (mname : String) (encoded_font : String)
    (hc : (List.lookup color COLOR_SCHEMES).isSome)
    (hrect : ∀ r ∈ data, r.length = w)
    (hshape : List.lookup (data.length, maxRowLen data) MODEL_BY_SIZE
      = some mname)
    (hfq : Char.ofNat 34 ∉ encoded_font.data)
    (hfwm : countOcc wordmark encoded_font.data = 0) :
    ∃ v s, VestaboardModel.from_color color (some data) = Except.ok v
      ∧ create_svg data color encoded_font = Except.ok s
      ∧ countOcc cellMarker s.data = v.rows * v.columns
      ∧ countOcc wordmark s.data = 1 := by
  have hkey := size_lookup_full _ _ hshape
  have hcol := color_lookup_cases color hc
  have hbase : ∀ rr cc : Nat, (data.length, maxRowLen data) = (rr, cc) →
      0 < rr → 0 < cc →
      data ≠ [] ∧ w = cc ∧ (∀ r ∈ data, r ≠ []) := by
    intro rr cc hk hrr hcc
    have hk1 : data.length = rr := by
      have := congrArg Prod.fst hk
      simpa using this
    have hk2 : maxRowLen data = cc := by
      have := congrArg Prod.snd hk
      simpa using this
    have hdne : data ≠ [] := by
      intro he
      rw [he] at hk1
      simp at hk1
      omega
    have hw : w = cc := by
      rw [← maxRowLen_const data w hdne hrect]
      exact hk2
    refine ⟨hdne, hw, ?_⟩
    intro r hrm he
    have hl := hrect r hrm
    rw [he] at hl
    simp at hl
    omega
  rcases hkey with ⟨hk, rfl⟩ | ⟨hk, rfl⟩ <;> rcases hcol with rfl | rfl
  · obtain ⟨hdne, hw, hrne⟩ := hbase 6 22 hk (by omega) (by omega)
    have hcolOk : (List.lookup COLOR_BLACK COLOR_SCHEMES).isSome = true := by decide
    have hmOk : (List.lookup MODEL_FLAGSHIP MODELS).isSome = true := by decide
    have hfc : VestaboardModel.from_color COLOR_BLACK (some data)
        = Except.ok ⟨COLOR_BLACK, MODEL_FLAGSHIP, hcolOk, hmOk⟩ := by
      simp [VestaboardModel.from_color, VestaboardModel.make, hshape, hcolOk, hmOk]
    obtain ⟨s, hs1, hs2, hs3⟩ := svg_counts_black data encoded_font
      MODEL_FLAGSHIP hmOk hcolOk hfc hdne hrne hfq hfwm
    refine ⟨_, s, hfc, hs1, ?_, hs3⟩
    rw [hs2, sum_map_length_const data w hrect, hw]
    have hk1 : data.length = 6 := by simpa using congrArg Prod.fst hk
    rw [hk1]
    rfl
  · obtain ⟨hdne, hw, hrne⟩ := hbase 6 22 hk (by omega) (by omega)
    have hcolOk : (List.lookup COLOR_WHITE COLOR_SCHEMES).isSome = true := by decide
    have hmOk : (List.lookup MODEL_FLAGSHIP MODELS).isSome = true := by decide
    have hfc : VestaboardModel.from_color COLOR_WHITE (some data)
        = Except.ok ⟨COLOR_WHITE, MODEL_FLAGSHIP, hcolOk, hmOk⟩ := by
      simp [VestaboardModel.from_color, VestaboardModel.make, hshape, hcolOk, hmOk]
    obtain ⟨s, hs1, hs2, hs3⟩ := svg_counts_white data encoded_font
      MODEL_FLAGSHIP hmOk hcolOk hfc hdne hrne hfq hfwm
    refine ⟨_, s, hfc, hs1, ?_, hs3⟩
    rw [hs2, sum_map_length_const data w hrect, hw]
    have hk1 : data.length = 6 := by simpa using congrArg Prod.fst hk
    rw [hk1]
    rfl
  · obtain ⟨hdne, hw, hrne⟩ := hbase 3 15 hk (by omega) (by omega)
    have hcolOk : (List.lookup COLOR_BLACK COLOR_SCHEMES).isSome = true := by decide
    have hmOk : (List.lookup MODEL_NOTE MODELS).isSome = true := by decide
    have hfc : VestaboardModel.from_color COLOR_BLACK (some data)
        = Except.ok ⟨COLOR_BLACK, MODEL_NOTE, hcolOk, hmOk⟩ := by
      simp [VestaboardModel.from_color, VestaboardModel.make, hshape, hcolOk, hmOk]
    obtain ⟨s, hs1, hs2, hs3⟩ := svg_counts_black data encoded_font
      MODEL_NOTE hmOk hcolOk hfc hdne hrne hfq hfwm
    refine ⟨_, s, hfc, hs1, ?_, hs3⟩
    rw [hs2, sum_map_length_const data w hrect, hw]
    have hk1 : data.length = 3 := by simpa using congrArg Prod.fst hk
    rw [hk1]
    rfl
  · obtain ⟨hdne, hw, hrne⟩ := hbase 3 15 hk (by omega) (by omega)
    have hcolOk : (List.lookup COLOR_WHITE COLOR_SCHEMES).isSome = true := by decide
    have hmOk : (List.lookup MODEL_NOTE MODELS).isSome = true := by decide
    have hfc : VestaboardModel.from_color COLOR_WHITE (some data)
        = Except.ok ⟨COLOR_WHITE, MODEL_NOTE, hcolOk, hmOk⟩ := by
      simp [VestaboardModel.from_color, VestaboardModel.make, hshape, hcolOk, hmOk]
    obtain ⟨s, hs1, hs2, hs3⟩ := svg_counts_white data encoded_font
      MODEL_NOTE hmOk hcolOk hfc hdne hrne hfq hfwm
    refine ⟨_, s, hfc, hs1, ?_, hs3⟩
    rw [hs2, sum_map_length_const data w hrect, hw]
    have hk1 : data.length = 3 := by simpa using congrArg Prod.fst hk
    rw [hk1]
    rfl

theorem claim_C9_witness :
    ∃ v s, VestaboardModel.from_color "black"
        (some (List.replicate 3 (List.replicate 15 0))) = Except.ok v
      ∧ create_svg (List.replicate 3 (List.replicate 15 0)) "black" "QUJDRA=="
          = Except.ok s
      ∧ countOcc cellMarker s.data = v.rows * v.columns
      ∧ countOcc wordmark s.data = 1 :=
  claim_C9 "black" (List.replicate 3 (List.replicate 15 0)) 15 "note" "QUJDRA=="
    (by decide) (by decide) (by decide) (by decide) (by decide)
